import Mathlib

/-!
Shallow embedding of the multi-tenant notes application (tenants, users,
notes, invitations; FREE/PRO subscription limits; tenant-scoped CRUD;
invitation workflow).  Each definition mirrors the corresponding source
function; HTTP handlers are modelled as pure functions from a caller
context, the parsed request data and the datastore state to a response
and an updated state.  Dates are modelled as natural numbers, JSON bodies
with a small inductive `Json` type, and external collaborators (JWT
verification, password hashing, id generation) as explicit parameters.
-/

namespace NotesApp

/-- Role enum from the Prisma schema and `@/types`. -/
inductive Role where
  | ADMIN
  | MEMBER
deriving DecidableEq, Repr

/-- Subscription plan enum. -/
inductive Plan where
  | FREE
  | PRO
deriving DecidableEq, Repr

/-- Invitation status enum. -/
inductive InvitationStatus where
  | PENDING
  | ACCEPTED
  | EXPIRED
  | CANCELLED
deriving DecidableEq, Repr

/-- Tenant row. -/
structure Tenant where
  id : String
  slug : String
  name : String
  plan : Plan
deriving DecidableEq, Repr

/-- User row. -/
structure User where
  id : String
  email : String
  password : String
  role : Role
  tenantId : String
deriving DecidableEq, Repr

/-- Note row (timestamps as naturals). -/
structure Note where
  id : String
  title : String
  content : String
  authorId : String
  tenantId : String
  createdAt : Nat
  updatedAt : Nat
deriving DecidableEq, Repr

/-- Invitation row. -/
structure Invitation where
  id : String
  email : String
  role : Role
  token : String
  status : InvitationStatus
  tenantId : String
  invitedBy : String
  expiresAt : Nat
  acceptedAt : Option Nat
  createdAt : Nat
deriving DecidableEq, Repr

/-- The relational store: the four tables. -/
structure Store where
  tenants : List Tenant
  users : List User
  notes : List Note
  invitations : List Invitation
deriving DecidableEq, Repr

/-- The caller context extracted from a verified JWT
(`getUserContextFromToken` / `getUserContextFromHeaders`). -/
structure UserContext where
  userId : String
  email : String
  role : Role
  tenantId : String
  tenantSlug : String
deriving DecidableEq, Repr

/-- JSON values, for response bodies. -/
inductive Json where
  | null
  | bool (b : Bool)
  | num (n : Nat)
  | str (s : String)
  | arr (xs : List Json)
  | obj (fields : List (String × Json))
deriving Repr

/-- An HTTP response: status code and JSON body. -/
structure Response where
  status : Nat
  body : Json
deriving Repr

def roleToString : Role → String
  | .ADMIN => "ADMIN"
  | .MEMBER => "MEMBER"

def planToString : Plan → String
  | .FREE => "FREE"
  | .PRO => "PRO"

/-! ## api-response helpers (`@/lib/api-response`) -/

/-- Model of `createApiResponse`: success envelope `{success:true, data, message?}`. -/
def createApiResponse (data : Json) (message : Option String) (status : Nat) : Response :=
  { status := status
    body := Json.obj ([("success", Json.bool true), ("data", data)] ++
      (match message with
       | some m => [("message", Json.str m)]
       | none => [])) }

/-- Model of `createApiError`: error envelope `{success:false, error}`. -/
def createApiError (error : String) (status : Nat) : Response :=
  { status := status
    body := Json.obj [("success", Json.bool false), ("error", Json.str error)] }

def createValidationError (message : String) : Response :=
  createApiError message 400

def createNotFoundError (resource : String) : Response :=
  createApiError (resource ++ " not found") 404

def createForbiddenError : Response :=
  createApiError "Forbidden" 403

/-- Raw `NextResponse.json({error: msg}, {status})` as used by the
invitation routes (no `success` flag). -/
def jsonError (status : Nat) (msg : String) : Response :=
  { status := status, body := Json.obj [("error", Json.str msg)] }

/-- Recognizer for the uniform error envelope `{success:false, error:<message>}`. -/
def isErrorEnvelope : Json → Bool
  | Json.obj [("success", Json.bool false), ("error", Json.str _)] => true
  | _ => false

/-! ## Note validation (`@/lib/note-validation`) -/

/-- Model of `validateNoteId`: CUID check, regex `^c[a-z0-9]\x7b24\x7d$` with the
case-insensitive flag. -/
def validateNoteId (id : String) : Bool :=
  match id.data with
  | [] => false
  | c :: rest =>
    (c = 'c' || c = 'C') && rest.length = 24 && rest.all (fun ch => ch.isAlpha || ch.isDigit)

/-- Parsed body of a create-note request (tags are validated but dropped by
the handler: "tags are not supported in current schema"). -/
structure CreateNoteBody where
  title : String
  content : String
deriving DecidableEq, Repr

/-- Validated create-note data. -/
structure CreateNoteData where
  title : String
  content : String
deriving DecidableEq, Repr

/-- Whitespace trimming on character lists. -/
def trimChars (cs : List Char) : List Char :=
  ((cs.dropWhile Char.isWhitespace).reverse.dropWhile Char.isWhitespace).reverse

/-- Model of the JS `String.prototype.trim` used by the validators. -/
def strTrim (s : String) : String :=
  String.mk (trimChars s.data)

/-- Error list of `validateCreateNote` (the title and content checks; a JS
falsy title, i.e. the empty string, hits the "required" branch). -/
def validateCreateNoteErrors (b : CreateNoteBody) : List String :=
  (if b.title = "" then ["Title is required and must be a string"]
   else if (strTrim b.title).length = 0 then ["Title cannot be empty"]
   else if b.title.length > 200 then ["Title must be 200 characters or less"]
   else []) ++
  (if b.content = "" then ["Content is required and must be a string"]
   else if (strTrim b.content).length = 0 then ["Content cannot be empty"]
   else if b.content.length > 10000 then ["Content must be 10,000 characters or less"]
   else [])

/-- Model of `validateCreateNote`: on success returns the trimmed data. -/
def validateCreateNote (b : CreateNoteBody) : Except (List String) CreateNoteData :=
  match validateCreateNoteErrors b with
  | [] => .ok { title := (strTrim b.title), content := (strTrim b.content) }
  | errs => .error errs

/-- Parsed body of an update-note request (`undefined` fields are `none`). -/
structure UpdateNoteBody where
  title : Option String
  content : Option String
deriving DecidableEq, Repr

/-- Validated update-note data: the trimmed provided fields. -/
structure UpdateNoteData where
  title : Option String
  content : Option String
deriving DecidableEq, Repr

/-- Error list of `validateUpdateNote`.  A field is JS-falsy when absent or
the empty string; the per-field checks run whenever the field is present. -/
def validateUpdateNoteErrors (b : UpdateNoteBody) : List String :=
  (if (b.title = none ∨ b.title = some "") ∧ (b.content = none ∨ b.content = some "") then
     ["At least one field (title, content, or tags) must be provided for update"]
   else []) ++
  (match b.title with
   | none => []
   | some t =>
     if (strTrim t).length = 0 then ["Title cannot be empty"]
     else if t.length > 200 then ["Title must be 200 characters or less"]
     else []) ++
  (match b.content with
   | none => []
   | some c =>
     if (strTrim c).length = 0 then ["Content cannot be empty"]
     else if c.length > 10000 then ["Content must be 10,000 characters or less"]
     else [])

/-- Model of `validateUpdateNote`. -/
def validateUpdateNote (b : UpdateNoteBody) : Except (List String) UpdateNoteData :=
  match validateUpdateNoteErrors b with
  | [] => .ok { title := b.title.map strTrim, content := b.content.map strTrim }
  | errs => .error errs

/-- Model of `errors.join(', ')`. -/
def joinComma : List String → String
  | [] => ""
  | [s] => s
  | s :: rest => s ++ ", " ++ joinComma rest

/-! ## Subscription limits (`@/lib/subscription`) -/

/-- Model of `SUBSCRIPTION_LIMITS[plan].maxNotes`; `none` models `Infinity`. -/
def maxNotes : Plan → Option Nat
  | .FREE => some 3
  | .PRO => none

/-- Model of `SUBSCRIPTION_LIMITS[plan].maxUsers`; `none` models `Infinity`. -/
def maxUsers : Plan → Option Nat
  | .FREE => some 5
  | .PRO => none

/-- Model of `count < limit` where the limit may be `Infinity`. -/
def ltLimit (count : Nat) : Option Nat → Bool
  | none => true
  | some l => count < l

/-- Model of `canCreateNote(plan, currentNoteCount)`. -/
def canCreateNote (plan : Plan) (currentNoteCount : Nat) : Bool :=
  ltLimit currentNoteCount (maxNotes plan)

/-- Model of `canInviteUser(plan, currentUserCount)`. -/
def canInviteUser (plan : Plan) (currentUserCount : Nat) : Bool :=
  ltLimit currentUserCount (maxUsers plan)

/-- JS string interpolation of a possibly-infinite limit. -/
def limitToString : Option Nat → String
  | none => "Infinity"
  | some n => toString n

/-- JSON serialization of a possibly-infinite number
(`JSON.stringify(Infinity)` is `null`). -/
def limitJson : Option Nat → Json
  | none => Json.null
  | some n => Json.num n

/-- Model of `getRemainingNotes`: `Infinity` for PRO, else `Math.max(0, limit - count)`
(Nat subtraction is already clamped at 0). -/
def getRemainingNotes (plan : Plan) (currentNoteCount : Nat) : Option Nat :=
  match plan with
  | .PRO => none
  | .FREE => (maxNotes Plan.FREE).map (fun l => l - currentNoteCount)

/-- Model of `getRemainingUsers`. -/
def getRemainingUsers (plan : Plan) (currentUserCount : Nat) : Option Nat :=
  match plan with
  | .PRO => none
  | .FREE => (maxUsers Plan.FREE).map (fun l => l - currentUserCount)

/-- Number of note rows of a tenant (`tenant._count.notes`). -/
def noteCount (tenantId : String) (s : Store) : Nat :=
  (s.notes.filter (fun n => n.tenantId == tenantId)).length

/-- Number of user rows of a tenant (`tenant._count.users` /
`prisma.user.count`). -/
def userCount (tenantId : String) (s : Store) : Nat :=
  (s.users.filter (fun u => u.tenantId == tenantId)).length

/-- Model of `prisma.tenant.findUnique({where:{id}})`. -/
def findTenant (tenantId : String) (s : Store) : Option Tenant :=
  s.tenants.find? (fun t => t.id == tenantId)

/-- Model of `SubscriptionStatus` as returned by `getSubscriptionStatus`. -/
structure SubscriptionStatus where
  plan : Plan
  maxNotesLimit : Option Nat
  maxUsersLimit : Option Nat
  currentNotes : Nat
  currentUsers : Nat
  remainingNotes : Option Nat
  remainingUsers : Option Nat
  canUpgrade : Bool
deriving DecidableEq, Repr

/-- Model of `canUpgradePlan`. -/
def canUpgradePlan (currentPlan : Plan) : Bool :=
  currentPlan == Plan.FREE

/-- Model of `getSubscriptionStatus(tenantId)`; throws "Tenant not found" when the
tenant row is absent. -/
def getSubscriptionStatus (tenantId : String) (s : Store) : Except String SubscriptionStatus :=
  match findTenant tenantId s with
  | none => .error "Tenant not found"
  | some t =>
    .ok { plan := t.plan
          maxNotesLimit := maxNotes t.plan
          maxUsersLimit := maxUsers t.plan
          currentNotes := noteCount tenantId s
          currentUsers := userCount tenantId s
          remainingNotes := getRemainingNotes t.plan (noteCount tenantId s)
          remainingUsers := getRemainingUsers t.plan (userCount tenantId s)
          canUpgrade := canUpgradePlan t.plan }

/-- Result record of `checkNoteLimit`. -/
structure NoteLimitCheck where
  canCreate : Bool
  reason : Option String
  currentCount : Nat
  limit : Option Nat
deriving DecidableEq, Repr

/-- Model of `checkNoteLimit(tenantId)`. -/
def checkNoteLimit (tenantId : String) (s : Store) : Except String NoteLimitCheck :=
  match getSubscriptionStatus tenantId s with
  | .error e => .error e
  | .ok st =>
    let can := canCreateNote st.plan st.currentNotes
    .ok { canCreate := can
          reason := if can then none
                    else some ("Note limit reached. Current plan allows " ++
                               limitToString st.maxNotesLimit ++ " notes.")
          currentCount := st.currentNotes
          limit := st.maxNotesLimit }

/-- Model of `validateNoteCreation(tenantId)` from the subscription middleware: throws
the limit reason when creation is not allowed. -/
def validateNoteCreation (tenantId : String) (s : Store) : Except String Unit :=
  match checkNoteLimit tenantId s with
  | .error e => .error e
  | .ok r =>
    if r.canCreate then .ok ()
    else .error (r.reason.getD "Note creation limit reached. Upgrade to Pro plan for unlimited notes.")

/-! ## Authorization helpers (`@/lib/authorization`) -/

/-- The closed set of permission names of the `PERMISSIONS` matrix. -/
inductive Permission where
  | CREATE_NOTE
  | READ_OWN_NOTES
  | READ_ALL_NOTES
  | UPDATE_OWN_NOTES
  | UPDATE_ALL_NOTES
  | DELETE_OWN_NOTES
  | DELETE_ALL_NOTES
  | INVITE_USERS
  | LIST_USERS
  | UPDATE_USER_ROLES
  | DELETE_USERS
  | UPGRADE_SUBSCRIPTION
  | VIEW_TENANT_STATS
  | MANAGE_TENANT_SETTINGS
deriving DecidableEq, Repr

/-- The `PERMISSIONS` role matrix. -/
def PERMISSIONS : Permission → List Role
  | .CREATE_NOTE => [Role.ADMIN, Role.MEMBER]
  | .READ_OWN_NOTES => [Role.ADMIN, Role.MEMBER]
  | .READ_ALL_NOTES => [Role.ADMIN]
  | .UPDATE_OWN_NOTES => [Role.ADMIN, Role.MEMBER]
  | .UPDATE_ALL_NOTES => [Role.ADMIN]
  | .DELETE_OWN_NOTES => [Role.ADMIN, Role.MEMBER]
  | .DELETE_ALL_NOTES => [Role.ADMIN]
  | .INVITE_USERS => [Role.ADMIN]
  | .LIST_USERS => [Role.ADMIN]
  | .UPDATE_USER_ROLES => [Role.ADMIN]
  | .DELETE_USERS => [Role.ADMIN]
  | .UPGRADE_SUBSCRIPTION => [Role.ADMIN]
  | .VIEW_TENANT_STATS => [Role.ADMIN]
  | .MANAGE_TENANT_SETTINGS => [Role.ADMIN]

/-- Model of `hasPermission(role, permission)`. -/
def hasPermission (role : Role) (permission : Permission) : Bool :=
  (PERMISSIONS permission).any (fun allowedRole => allowedRole == role)

/-- Model of `canPerformAction(context, permission, resourceOwnerId?)`; a JS-falsy
`resourceOwnerId` (absent or empty) skips the ownership check. -/
def canPerformAction (context : UserContext) (permission : Permission)
    (resourceOwnerId : Option String) : Bool :=
  if ¬ hasPermission context.role permission then false
  else if resourceOwnerId = none ∨ resourceOwnerId = some "" then true
  else if context.role = Role.ADMIN then true
  else resourceOwnerId == some context.userId

/-! ## JSON encodings of rows for response bodies -/

/-- The joined `author` selection `{id, email, role}` of a note. -/
def authorJson (s : Store) (authorId : String) : Json :=
  match s.users.find? (fun u => u.id == authorId) with
  | some u => Json.obj [("id", Json.str u.id), ("email", Json.str u.email),
                        ("role", Json.str (roleToString u.role))]
  | none => Json.null

/-- The note object returned by the note handlers. -/
def noteJson (s : Store) (n : Note) : Json :=
  Json.obj [("id", Json.str n.id), ("title", Json.str n.title),
            ("content", Json.str n.content), ("createdAt", Json.num n.createdAt),
            ("updatedAt", Json.num n.updatedAt), ("author", authorJson s n.authorId)]

/-- The `subscription` block of the note responses. -/
def subscriptionJson (st : SubscriptionStatus) : Json :=
  Json.obj [("plan", Json.str (planToString st.plan)),
            ("notesUsed", Json.num st.currentNotes),
            ("notesLimit", limitJson st.maxNotesLimit),
            ("notesRemaining", limitJson st.remainingNotes)]

/-! ## Note handlers

`GET/PUT/DELETE /api/notes/[id]` and `GET/POST /api/notes`.  The caller
context is the (possibly absent) result of `getUserContextFromToken`; the
JS-falsy check `!context.userId || !context.tenantId` is the emptiness
check on those strings. -/

/-- Model of `prisma.note.findFirst({where:{id, tenantId}})`: the tenant-scoped
note lookup shared by the three `[id]` handlers. -/
def findNoteScoped (id tenantId : String) (s : Store) : Option Note :=
  s.notes.find? (fun n => n.id == id && n.tenantId == tenantId)

/-- Model of `GET /api/notes/[id]`. -/
def noteGet (ctx : Option UserContext) (id : String) (s : Store) : Response :=
  match ctx with
  | none => createApiError "Authentication required" 401
  | some c =>
    if c.userId = "" ∨ c.tenantId = "" then createApiError "Authentication required" 401
    else if ¬ validateNoteId id then createValidationError "Invalid note ID format"
    else
      match findNoteScoped id c.tenantId s with
      | none => createNotFoundError "Note"
      | some n =>
        createApiResponse (Json.obj [("note", noteJson s n)])
          (some "Note retrieved successfully") 200

/-- Model of `validation.data` applied to a note row by `prisma.note.update`
(`updatedAt` is refreshed by the `@updatedAt` column). -/
def applyUpdate (d : UpdateNoteData) (now : Nat) (n : Note) : Note :=
  { n with title := d.title.getD n.title
           content := d.content.getD n.content
           updatedAt := now }

/-- Model of `PUT /api/notes/[id]`. -/
def notePut (ctx : Option UserContext) (id : String) (body : UpdateNoteBody)
    (now : Nat) (s : Store) : Response × Store :=
  match ctx with
  | none => (createApiError "Authentication required" 401, s)
  | some c =>
    if c.userId = "" ∨ c.tenantId = "" then (createApiError "Authentication required" 401, s)
    else if ¬ validateNoteId id then (createValidationError "Invalid note ID format", s)
    else
      match validateUpdateNote body with
      | .error errs => (createValidationError ("Validation failed: " ++ joinComma errs), s)
      | .ok d =>
        match findNoteScoped id c.tenantId s with
        | none => (createNotFoundError "Note", s)
        | some existingNote =>
          if existingNote.authorId ≠ c.userId ∧ c.role ≠ Role.ADMIN then
            (createApiError "You can only edit your own notes" 403, s)
          else
            let updatedNote := applyUpdate d now existingNote
            let s' : Store :=
              { s with notes := s.notes.map (fun n => if n.id == id then applyUpdate d now n else n) }
            (createApiResponse (Json.obj [("note", noteJson s' updatedNote)])
               (some "Note updated successfully") 200, s')

/-- Model of `DELETE /api/notes/[id]`.  The row is deleted before the subscription
status is read, so a failing status read still leaves the row deleted. -/
def noteDelete (ctx : Option UserContext) (id : String) (s : Store) : Response × Store :=
  match ctx with
  | none => (createApiError "Authentication required" 401, s)
  | some c =>
    if c.userId = "" ∨ c.tenantId = "" then (createApiError "Authentication required" 401, s)
    else if ¬ validateNoteId id then (createValidationError "Invalid note ID format", s)
    else
      match findNoteScoped id c.tenantId s with
      | none => (createNotFoundError "Note", s)
      | some existingNote =>
        if existingNote.authorId ≠ c.userId ∧ c.role ≠ Role.ADMIN then
          (createApiError "You can only delete your own notes" 403, s)
        else
          let s' : Store := { s with notes := s.notes.filter (fun n => ¬ n.id == id) }
          match getSubscriptionStatus c.tenantId s' with
          | .error _ => (createApiError "Failed to delete note" 500, s')
          | .ok st =>
            (createApiResponse
               (Json.obj [("deletedNote",
                            Json.obj [("id", Json.str existingNote.id),
                                      ("title", Json.str existingNote.title),
                                      ("author", authorJson s existingNote.authorId)]),
                          ("subscription", subscriptionJson st)])
               (some "Note deleted successfully") 200, s')

/-- Model of `POST /api/notes`.  `freshId` is the cuid generated by the datastore for
the new row, `now` the row timestamp. -/
def notesCreate (ctx : Option UserContext) (body : CreateNoteBody) (freshId : String)
    (now : Nat) (s : Store) : Response × Store :=
  match ctx with
  | none => (createApiError "Authentication required" 401, s)
  | some c =>
    if c.userId = "" ∨ c.tenantId = "" then (createApiError "Authentication required" 401, s)
    else
      match validateCreateNote body with
      | .error errs => (createValidationError ("Validation failed: " ++ joinComma errs), s)
      | .ok d =>
        match validateNoteCreation c.tenantId s with
        | .error msg => (createApiError msg 403, s)
        | .ok _ =>
          let note : Note :=
            { id := freshId, title := d.title, content := d.content,
              authorId := c.userId, tenantId := c.tenantId,
              createdAt := now, updatedAt := now }
          let s' : Store := { s with notes := s.notes ++ [note] }
          match getSubscriptionStatus c.tenantId s' with
          | .error _ => (createApiError "Failed to create note" 500, s')
          | .ok st =>
            (createApiResponse
               (Json.obj [("note", noteJson s' note),
                          ("subscription", subscriptionJson st)])
               (some "Note created successfully") 201, s')

/-! ## Note listing (`GET /api/notes`) -/

/-- Sort fields accepted by `validateNoteQueryParams`. -/
inductive SortField where
  | createdAt
  | updatedAt
  | title
deriving DecidableEq, Repr

/-- Sort orders accepted by `validateNoteQueryParams`. -/
inductive SortOrder where
  | asc
  | desc
deriving DecidableEq, Repr

/-- Validated query parameters of the list endpoint, with the handler's
defaults already applied. -/
structure NoteQuery where
  page : Nat := 1
  limit : Nat := 10
  search : Option String := none
  sortBy : SortField := SortField.createdAt
  sortOrder : SortOrder := SortOrder.desc
deriving DecidableEq, Repr

/-- Substring test on character lists. -/
def charsContain (hay needle : List Char) : Bool :=
  match hay with
  | [] => needle.isEmpty
  | _ :: rest => needle.isPrefixOf hay || charsContain rest needle

/-- Case-insensitive substring test (`contains` with `mode:'insensitive'`). -/
def containsInsensitive (hay needle : String) : Bool :=
  charsContain hay.toLower.data needle.toLower.data

/-- The `OR` search filter over title and content. -/
def matchesSearch (q : String) (n : Note) : Bool :=
  containsInsensitive n.title q || containsInsensitive n.content q

/-- The `where` clause of the list query: tenant isolation plus the
optional search filter. -/
def listWhere (tenantId : String) (search : Option String) (s : Store) : List Note :=
  s.notes.filter (fun n =>
    n.tenantId == tenantId &&
    (match search with
     | none => true
     | some q => matchesSearch q n))

/-- The `orderBy` comparator. -/
def noteLE (f : SortField) (ord : SortOrder) (a b : Note) : Bool :=
  let le : Bool :=
    match f with
    | .createdAt => a.createdAt ≤ b.createdAt
    | .updatedAt => a.updatedAt ≤ b.updatedAt
    | .title => a.title ≤ b.title
  match ord with
  | .asc => le
  | .desc => !le || (match f with
    | .createdAt => a.createdAt == b.createdAt
    | .updatedAt => a.updatedAt == b.updatedAt
    | .title => a.title == b.title)

/-- The list of note rows returned by `prisma.note.findMany` in the list
handler: filter, sort, then `skip`/`take` pagination. -/
def listNotesModel (c : UserContext) (q : NoteQuery) (s : Store) : List Note :=
  ((((listWhere c.tenantId q.search s).mergeSort
      (noteLE q.sortBy q.sortOrder)).drop ((q.page - 1) * q.limit)).take q.limit)

/-- Model of `GET /api/notes`. -/
def notesList (ctx : Option UserContext) (q : NoteQuery) (s : Store) : Response :=
  match ctx with
  | none => createApiError "Authentication required" 401
  | some c =>
    if c.userId = "" ∨ c.tenantId = "" then createApiError "Authentication required" 401
    else
      let notes := listNotesModel c q s
      let totalCount := (listWhere c.tenantId q.search s).length
      match getSubscriptionStatus c.tenantId s with
      | .error _ => createApiError "Failed to retrieve notes" 500
      | .ok st =>
        createApiResponse
          (Json.obj [("notes", Json.arr (notes.map (noteJson s))),
                     ("pagination",
                      Json.obj [("page", Json.num q.page), ("limit", Json.num q.limit),
                                ("totalCount", Json.num totalCount)]),
                     ("subscription", subscriptionJson st)])
          (some "Notes retrieved successfully") 200

/-! ## Invitation issuance (`POST /api/users/invite`)

Modelled from the point where the zod body validation has succeeded, so
the request data is the typed pair `(email, role)`.  `token` is the random
hex token from `generateInvitationToken`, `invId` the generated row id,
`expiresAt` the `now + 7 days` expiry computed by `getExpirationDate`. -/

/-- Pending-invitation count of a tenant
(`prisma.invitation.count({where:{tenantId, status:'PENDING'}})`). -/
def pendingInvitationCount (tenantId : String) (s : Store) : Nat :=
  (s.invitations.filter (fun i =>
    i.tenantId == tenantId && i.status == InvitationStatus.PENDING)).length

/-- Model of `POST /api/users/invite`. -/
def invitePost (ctx : Option UserContext) (email : String) (role : Role)
    (token invId : String) (now expiresAt : Nat) (s : Store) : Response × Store :=
  match ctx with
  | none => (jsonError 401 "Authentication required", s)
  | some c =>
    if c.role ≠ Role.ADMIN then
      (jsonError 403 "Admin access required. Only administrators can invite users.", s)
    else if s.users.any (fun u => u.email == email && u.tenantId == c.tenantId) then
      (jsonError 409 "User already exists in this organization", s)
    else if s.invitations.any (fun i =>
        i.email == email && i.tenantId == c.tenantId && i.status == InvitationStatus.PENDING) then
      (jsonError 409 "Invitation already sent to this email address", s)
    else
      match findTenant c.tenantId s with
      | none => (jsonError 404 "Tenant not found", s)
      | some tenant =>
        let currentUserCount := userCount c.tenantId s
        let pendingCount := pendingInvitationCount c.tenantId s
        let totalPotentialUsers := currentUserCount + pendingCount + 1
        if tenant.plan = Plan.FREE ∧ totalPotentialUsers > 5 then
          ({ status := 403
             body := Json.obj [("error", Json.str "User limit exceeded"),
                               ("message", Json.str "FREE plan allows up to 5 users. Upgrade to PRO for unlimited users."),
                               ("currentUsers", Json.num currentUserCount),
                               ("pendingInvitations", Json.num pendingCount),
                               ("limit", Json.num 5)] }, s)
        else
          let invitation : Invitation :=
            { id := invId, email := email, role := role, token := token,
              status := InvitationStatus.PENDING, tenantId := c.tenantId,
              invitedBy := c.userId, expiresAt := expiresAt,
              acceptedAt := none, createdAt := now }
          ({ status := 201
             body := Json.obj [("message", Json.str "Invitation sent successfully"),
                               ("invitation",
                                Json.obj [("id", Json.str invId),
                                          ("email", Json.str email),
                                          ("role", Json.str (roleToString role)),
                                          ("status", Json.str "PENDING"),
                                          ("expiresAt", Json.num expiresAt),
                                          ("invitationToken", Json.str token)])] },
           { s with invitations := s.invitations ++ [invitation] })

/-! ## Invitation acceptance (`POST /api/users/invite/accept`) -/

/-- The zod body schema of the accept endpoint: non-empty token, password of
at least 8 characters, non-empty confirmation equal to the password. -/
def acceptBodyValid (token password confirmPassword : String) : Bool :=
  token.length ≥ 1 && password.length ≥ 8 && confirmPassword.length ≥ 1 &&
  password == confirmPassword

/-- Model of `prisma.invitation.findFirst({where:{token, status:'PENDING'}})`. -/
def findPendingByToken (token : String) (s : Store) : Option Invitation :=
  s.invitations.find? (fun i => i.token == token && i.status == InvitationStatus.PENDING)

/-- Model of `prisma.invitation.update({where:{id}})` applied to the invitation table. -/
def updateInvitation (invId : String) (f : Invitation → Invitation) (s : Store) : Store :=
  { s with invitations := s.invitations.map (fun i => if i.id == invId then f i else i) }

/-- Model of `POST /api/users/invite/accept`.  `hash` is the bcrypt call,
`freshUserId` the generated id for the new row, `now` the current time. -/
def acceptInvite (token password confirmPassword : String) (hash : String → String)
    (freshUserId : String) (now : Nat) (s : Store) : Response × Store :=
  if ¬ acceptBodyValid token password confirmPassword then
    ({ status := 400
       body := Json.obj [("error", Json.str "Invalid request data"),
                         ("details", Json.arr [])] }, s)
  else
    match findPendingByToken token s with
    | none => (jsonError 404 "Invalid or expired invitation token", s)
    | some invitation =>
      match findTenant invitation.tenantId s with
      | none => (jsonError 500 "Internal server error", s)
      | some tenant =>
        if invitation.expiresAt < now then
          (jsonError 410 "Invitation has expired",
           updateInvitation invitation.id
             (fun i => { i with status := InvitationStatus.EXPIRED }) s)
        else if s.users.any (fun u =>
            u.email == invitation.email && u.tenantId == invitation.tenantId) then
          (jsonError 409 "User already exists in this organization",
           updateInvitation invitation.id
             (fun i => { i with status := InvitationStatus.ACCEPTED, acceptedAt := some now }) s)
        else if tenant.plan = Plan.FREE ∧ userCount invitation.tenantId s ≥ 5 then
          ({ status := 403
             body := Json.obj [("error", Json.str "User limit exceeded"),
                               ("message", Json.str "This organization has reached its user limit. Please contact an administrator to upgrade the plan."),
                               ("currentUsers", Json.num (userCount invitation.tenantId s)),
                               ("limit", Json.num 5)] }, s)
        else
          let newUser : User :=
            { id := freshUserId, email := invitation.email, password := hash password,
              role := invitation.role, tenantId := invitation.tenantId }
          ({ status := 201
             body := Json.obj [("message", Json.str "Account created successfully"),
                               ("user",
                                Json.obj [("id", Json.str freshUserId),
                                          ("email", Json.str invitation.email),
                                          ("role", Json.str (roleToString invitation.role)),
                                          ("tenantId", Json.str invitation.tenantId),
                                          ("tenantName", Json.str tenant.name),
                                          ("tenantSlug", Json.str tenant.slug)])] },
           updateInvitation invitation.id
             (fun i => { i with status := InvitationStatus.ACCEPTED, acceptedAt := some now })
             { s with users := s.users ++ [newUser] })

/-! ## Sample rows for concrete witnesses -/

/-- Sample FREE tenant. -/
def tenantAcme : Tenant := { id := "t1", slug := "acme", name := "Acme", plan := Plan.FREE }

/-- Sample PRO tenant. -/
def tenantGlobex : Tenant := { id := "t2", slug := "globex", name := "Globex", plan := Plan.PRO }

/-- Sample admin user of the FREE tenant. -/
def userAdminAcme : User :=
  { id := "u1", email := "admin@acme.test", password := "h1", role := Role.ADMIN, tenantId := "t1" }

/-- Sample member user of the FREE tenant. -/
def userMemberAcme : User :=
  { id := "u2", email := "member@acme.test", password := "h2", role := Role.MEMBER, tenantId := "t1" }

/-- Caller context of the Acme admin. -/
def ctxAdminAcme : UserContext :=
  { userId := "u1", email := "admin@acme.test", role := Role.ADMIN,
    tenantId := "t1", tenantSlug := "acme" }

/-- Caller context of the Acme member. -/
def ctxMemberAcme : UserContext :=
  { userId := "u2", email := "member@acme.test", role := Role.MEMBER,
    tenantId := "t1", tenantSlug := "acme" }

/-- Caller context of a Globex admin. -/
def ctxAdminGlobex : UserContext :=
  { userId := "u3", email := "admin@globex.test", role := Role.ADMIN,
    tenantId := "t2", tenantSlug := "globex" }

/-- A well-formed cuid-shaped id. -/
def cuid1 : String := "c000000000000000000000001"

/-- A second well-formed cuid-shaped id. -/
def cuid2 : String := "c000000000000000000000002"

/-- Sample note of the Acme tenant authored by the admin. -/
def noteAcme1 : Note :=
  { id := cuid1, title := "T", content := "C", authorId := "u1", tenantId := "t1",
    createdAt := 1, updatedAt := 1 }

/-- Base sample store: two tenants, two Acme users, one Acme note. -/
def storeBase : Store :=
  { tenants := [tenantAcme, tenantGlobex]
    users := [userAdminAcme, userMemberAcme]
    notes := [noteAcme1]
    invitations := [] }

/-! ## Claims -/

/-- C1: tenant isolation of notes.  A note whose `tenantId` differs from the
caller's `tenantId` is never an element of the list returned by the notes
list query, and the tenant-scoped note lookup used by `GET /api/notes/[id]`
never yields it, whatever id is requested: every note read filters on the
caller's `tenantId`. -/
theorem tenant_isolation_of_notes (s : Store) (c : UserContext) (q : NoteQuery) (n : Note)
    (h : n.tenantId ≠ c.tenantId) :
    n ∉ listNotesModel c q s ∧ ∀ id : String, findNoteScoped id c.tenantId s ≠ some n := by
  constructor
  · intro hmem
    have h1 : n ∈ listWhere c.tenantId q.search s := by
      have h2 := List.mem_of_mem_take hmem
      have h3 := List.mem_of_mem_drop h2
      exact List.mem_mergeSort.mp h3
    simp only [listWhere, List.mem_filter, Bool.and_eq_true, beq_iff_eq] at h1
    exact h h1.2.1
  · intro id heq
    have hp := List.find?_some heq
    simp only [Bool.and_eq_true, beq_iff_eq] at hp
    exact h hp.2

/-- Concrete witness for C1: the Acme note is invisible to a Globex caller. -/
theorem tenant_isolation_of_notes_witness :
    noteAcme1.tenantId ≠ ctxAdminGlobex.tenantId ∧
    noteAcme1 ∉ listNotesModel ctxAdminGlobex {} storeBase ∧
    findNoteScoped cuid1 ctxAdminGlobex.tenantId storeBase ≠ some noteAcme1 :=
  ⟨by decide,
   (tenant_isolation_of_notes storeBase ctxAdminGlobex {} noteAcme1 (by decide)).1,
   (tenant_isolation_of_notes storeBase ctxAdminGlobex {} noteAcme1 (by decide)).2 cuid1⟩

/-- C9: note id format gate.  For an authenticated caller and an id that
fails the cuid check, each of the three `/api/notes/[id]` handlers returns
the 400 validation error (not the 404 used for absent rows) and leaves the
store untouched; the result is the same for every store, so no tenant-scoped
lookup is involved in producing it. -/
theorem note_id_format_gate (c : UserContext) (id : String) (body : UpdateNoteBody)
    (now : Nat) (s : Store)
    (hu : c.userId ≠ "") (ht : c.tenantId ≠ "") (hid : validateNoteId id = false) :
    noteGet (some c) id s = createValidationError "Invalid note ID format" ∧
    notePut (some c) id body now s = (createValidationError "Invalid note ID format", s) ∧
    noteDelete (some c) id s = (createValidationError "Invalid note ID format", s) := by
  refine ⟨?_, ?_, ?_⟩ <;> simp [noteGet, notePut, noteDelete, hu, ht, hid]

/-- Concrete witness for C9 at the malformed id "bogus". -/
theorem note_id_format_gate_witness :
    ctxAdminAcme.userId ≠ "" ∧ ctxAdminAcme.tenantId ≠ "" ∧
    validateNoteId "bogus" = false ∧
    noteGet (some ctxAdminAcme) "bogus" storeBase =
      createValidationError "Invalid note ID format" :=
  ⟨by decide, by decide, by decide,
   (note_id_format_gate ctxAdminAcme "bogus" { title := none, content := none } 0 storeBase
     (by decide) (by decide) (by decide)).1⟩

/-- A third cuid-shaped id. -/
def cuid3 : String := "c000000000000000000000003"

/-- A fourth cuid-shaped id. -/
def cuid4 : String := "c000000000000000000000004"

/-- Second sample Acme note. -/
def noteAcme2 : Note :=
  { id := cuid2, title := "T2", content := "C2", authorId := "u1", tenantId := "t1",
    createdAt := 2, updatedAt := 2 }

/-- Third sample Acme note. -/
def noteAcme3 : Note :=
  { id := cuid3, title := "T3", content := "C3", authorId := "u2", tenantId := "t1",
    createdAt := 3, updatedAt := 3 }

/-- Store in which the FREE tenant already holds exactly 3 notes. -/
def storeFull : Store :=
  { tenants := [tenantAcme, tenantGlobex]
    users := [userAdminAcme, userMemberAcme]
    notes := [noteAcme1, noteAcme2, noteAcme3]
    invitations := [] }

/-- C2: FREE-plan note cap.  For an authenticated caller of a FREE tenant
whose note count is exactly 3, a valid create request returns the 403
limit-exceeded error and the store is unchanged: no note row is persisted. -/
theorem free_plan_note_cap (c : UserContext) (body : CreateNoteBody) (freshId : String)
    (now : Nat) (s : Store) (t : Tenant)
    (hu : c.userId ≠ "") (ht : c.tenantId ≠ "")
    (hbody : validateCreateNoteErrors body = [])
    (hten : findTenant c.tenantId s = some t) (hplan : t.plan = Plan.FREE)
    (hcount : noteCount c.tenantId s = 3) :
    notesCreate (some c) body freshId now s =
      (createApiError "Note limit reached. Current plan allows 3 notes." 403, s) := by
  simp only [notesCreate, hu, ht, validateCreateNote, hbody, validateNoteCreation, checkNoteLimit,
        getSubscriptionStatus, hten, hplan, hcount, canCreateNote, maxNotes, ltLimit,
        limitToString]
  norm_num
  rfl

/-- Concrete witness for C2: the Acme admin's 4th create attempt fails with
403 and leaves the store unchanged. -/
theorem free_plan_note_cap_witness :
    tenantAcme.plan = Plan.FREE ∧ noteCount "t1" storeFull = 3 ∧
    notesCreate (some ctxAdminAcme) { title := "T4", content := "C4" } cuid4 4 storeFull =
      (createApiError "Note limit reached. Current plan allows 3 notes." 403, storeFull) :=
  ⟨by decide, by decide,
   free_plan_note_cap ctxAdminAcme { title := "T4", content := "C4" } cuid4 4 storeFull
     tenantAcme (by decide) (by decide) (by decide) (by decide) (by decide) (by decide)⟩

/-- C3: member ownership restriction.  For a MEMBER caller and a note of the
caller's tenant, the update and delete handlers can only answer 200 when the
note's `authorId` equals the caller's `userId`; when it does not, both
handlers answer the 403 ownership error and leave the store unchanged. -/
theorem member_ownership_restriction (c : UserContext) (id : String) (body : UpdateNoteBody)
    (d : UpdateNoteData) (now : Nat) (s : Store) (n : Note)
    (hrole : c.role = Role.MEMBER)
    (hu : c.userId ≠ "") (ht : c.tenantId ≠ "") (hid : validateNoteId id = true)
    (hbody : validateUpdateNote body = .ok d)
    (hfind : findNoteScoped id c.tenantId s = some n) :
    ((notePut (some c) id body now s).1.status = 200 → n.authorId = c.userId) ∧
    ((noteDelete (some c) id s).1.status = 200 → n.authorId = c.userId) ∧
    (n.authorId ≠ c.userId →
      notePut (some c) id body now s =
        (createApiError "You can only edit your own notes" 403, s) ∧
      noteDelete (some c) id s =
        (createApiError "You can only delete your own notes" 403, s)) := by
  by_cases hA : n.authorId = c.userId
  · refine ⟨fun _ => hA, fun _ => hA, fun hne => absurd hA hne⟩
  · have hput : notePut (some c) id body now s =
        (createApiError "You can only edit your own notes" 403, s) := by
      simp [notePut, hu, ht, hid, hbody, hfind, hrole, hA]
    have hdel : noteDelete (some c) id s =
        (createApiError "You can only delete your own notes" 403, s) := by
      simp [noteDelete, hu, ht, hid, hfind, hrole, hA]
    refine ⟨?_, ?_, fun _ => ⟨hput, hdel⟩⟩
    · rw [hput]; intro hst; simp [createApiError] at hst
    · rw [hdel]; intro hst; simp [createApiError] at hst

/-- Concrete witness for C3: the Acme member cannot edit or delete the
admin's note. -/
theorem member_ownership_restriction_witness :
    ctxMemberAcme.role = Role.MEMBER ∧ noteAcme1.authorId ≠ ctxMemberAcme.userId ∧
    notePut (some ctxMemberAcme) cuid1 { title := some "X", content := none } 5 storeBase =
      (createApiError "You can only edit your own notes" 403, storeBase) ∧
    noteDelete (some ctxMemberAcme) cuid1 storeBase =
      (createApiError "You can only delete your own notes" 403, storeBase) := by
  have h := member_ownership_restriction ctxMemberAcme cuid1
    { title := some "X", content := none } { title := some "X", content := none } 5 storeBase
    noteAcme1 (by decide) (by decide) (by decide) (by decide) (by rfl) (by decide)
  exact ⟨by decide, by decide, (h.2.2 (by decide)).1, (h.2.2 (by decide)).2⟩

/-- A pending invitation for a fresh address of the Acme tenant. -/
def invPending : Invitation :=
  { id := "i1", email := "new@acme.test", role := Role.MEMBER, token := "tok1",
    status := InvitationStatus.PENDING, tenantId := "t1", invitedBy := "u1",
    expiresAt := 100, acceptedAt := none, createdAt := 0 }

/-- A pending invitation whose email already belongs to an Acme user. -/
def invDup : Invitation :=
  { id := "i2", email := "member@acme.test", role := Role.MEMBER, token := "tok2",
    status := InvitationStatus.PENDING, tenantId := "t1", invitedBy := "u1",
    expiresAt := 100, acceptedAt := none, createdAt := 0 }

/-- Base store extended with the two pending invitations. -/
def storeInvite : Store :=
  { storeBase with invitations := [invPending, invDup] }

/-- C4: invitation accept rejection.  When the token matches no PENDING
invitation, or the matched invitation is already past its expiry, the accept
call answers an error status (404, 410, or the 400/500 guards on the way)
and the user table is unchanged: no User row is created. -/
theorem invitation_accept_rejection (token password confirmPassword : String)
    (hash : String → String) (freshUserId : String) (now : Nat) (s : Store)
    (hcase : findPendingByToken token s = none ∨
             ∃ inv, findPendingByToken token s = some inv ∧ inv.expiresAt < now) :
    (acceptInvite token password confirmPassword hash freshUserId now s).1.status ≥ 400 ∧
    (acceptInvite token password confirmPassword hash freshUserId now s).2.users = s.users := by
  by_cases hv : acceptBodyValid token password confirmPassword = true
  · cases hcase with
    | inl hnone => simp [acceptInvite, hv, hnone, jsonError]
    | inr hex =>
      obtain ⟨inv, hfind, hexp⟩ := hex
      cases hten : findTenant inv.tenantId s with
      | none => simp [acceptInvite, hv, hfind, hten, jsonError]
      | some t => simp [acceptInvite, hv, hfind, hten, hexp, jsonError, updateInvitation]
  · simp [acceptInvite, hv]

/-- Concrete witness for C4: an unknown token is rejected with 404 and the
user table is untouched. -/
theorem invitation_accept_rejection_witness :
    findPendingByToken "tok9" storeInvite = none ∧
    (acceptInvite "tok9" "password1" "password1" (fun p => p) "u9" 50 storeInvite).1.status ≥ 400 ∧
    (acceptInvite "tok9" "password1" "password1" (fun p => p) "u9" 50 storeInvite).2.users =
      storeInvite.users :=
  ⟨by decide,
   (invitation_accept_rejection "tok9" "password1" "password1" (fun p => p) "u9" 50 storeInvite
     (Or.inl (by decide))).1,
   (invitation_accept_rejection "tok9" "password1" "password1" (fun p => p) "u9" 50 storeInvite
     (Or.inl (by decide))).2⟩

/-- C5: atomic invitation acceptance.  A successful accept of a PENDING,
unexpired invitation whose email has no existing user is a single transition
of the store (the transaction) whose result simultaneously contains the new
User row and the invitation flipped to ACCEPTED with `acceptedAt` set; the
step function never produces a state with only one of the two changes
applied (the duplicate-email branch, which marks ACCEPTED without creating
a row, is the subject of C10). -/
theorem atomic_invitation_acceptance (token password confirmPassword : String)
    (hash : String → String) (freshUserId : String) (now : Nat) (s : Store)
    (inv : Invitation) (tenant : Tenant)
    (hbody : acceptBodyValid token password confirmPassword = true)
    (hfind : findPendingByToken token s = some inv)
    (hten : findTenant inv.tenantId s = some tenant)
    (hexp : ¬ inv.expiresAt < now)
    (hnouser : s.users.any (fun u => u.email == inv.email && u.tenantId == inv.tenantId) = false)
    (hlimit : ¬ (tenant.plan = Plan.FREE ∧ userCount inv.tenantId s ≥ 5)) :
    (acceptInvite token password confirmPassword hash freshUserId now s).1.status = 201 ∧
    (acceptInvite token password confirmPassword hash freshUserId now s).2 =
      updateInvitation inv.id
        (fun i => { i with status := InvitationStatus.ACCEPTED, acceptedAt := some now })
        { s with users := s.users ++
            [{ id := freshUserId, email := inv.email, password := hash password,
               role := inv.role, tenantId := inv.tenantId }] } ∧
    ({ id := freshUserId, email := inv.email, password := hash password,
       role := inv.role, tenantId := inv.tenantId } : User) ∈
      (acceptInvite token password confirmPassword hash freshUserId now s).2.users ∧
    ∃ i ∈ (acceptInvite token password confirmPassword hash freshUserId now s).2.invitations,
      i.id = inv.id ∧ i.status = InvitationStatus.ACCEPTED ∧ i.acceptedAt = some now := by
  have hred : acceptInvite token password confirmPassword hash freshUserId now s =
      ({ status := 201
         body := Json.obj [("message", Json.str "Account created successfully"),
                           ("user",
                            Json.obj [("id", Json.str freshUserId),
                                      ("email", Json.str inv.email),
                                      ("role", Json.str (roleToString inv.role)),
                                      ("tenantId", Json.str inv.tenantId),
                                      ("tenantName", Json.str tenant.name),
                                      ("tenantSlug", Json.str tenant.slug)])] },
       updateInvitation inv.id
         (fun i => { i with status := InvitationStatus.ACCEPTED, acceptedAt := some now })
         { s with users := s.users ++
             [{ id := freshUserId, email := inv.email, password := hash password,
                role := inv.role, tenantId := inv.tenantId }] }) := by
    simp [acceptInvite, hbody, hfind, hten, hexp, hnouser, hlimit]
  refine ⟨by rw [hred], by rw [hred], ?_, ?_⟩

  · rw [hred]
    simp [updateInvitation]
  · rw [hred]
    refine ⟨{ inv with status := InvitationStatus.ACCEPTED, acceptedAt := some now }, ?_, rfl, rfl, rfl⟩
    have hmem : inv ∈ s.invitations := List.mem_of_find?_eq_some hfind
    have himg := List.mem_map_of_mem
      (fun i => if i.id == inv.id then
        { i with status := InvitationStatus.ACCEPTED, acceptedAt := some now } else i) hmem
    simpa [updateInvitation] using himg

/-- Concrete witness for C5: accepting the pending Acme invitation creates
the user and marks the invitation ACCEPTED in the same step. -/
theorem atomic_invitation_acceptance_witness :
    acceptBodyValid "tok1" "password1" "password1" = true ∧
    (acceptInvite "tok1" "password1" "password1" (fun p => p) "u9" 50 storeInvite).1.status = 201 ∧
    ({ id := "u9", email := "new@acme.test", password := "password1",
       role := Role.MEMBER, tenantId := "t1" } : User) ∈
      (acceptInvite "tok1" "password1" "password1" (fun p => p) "u9" 50 storeInvite).2.users := by
  have h := atomic_invitation_acceptance "tok1" "password1" "password1" (fun p => p) "u9" 50
    storeInvite invPending tenantAcme (by decide) (by decide) (by decide) (by decide)
    (by decide) (by decide)
  exact ⟨by decide, h.1, h.2.2.1⟩

/-- C10: invitation consumed on duplicate accept.  A valid accept of a
PENDING, unexpired invitation whose email already belongs to a user of the
invitation's tenant answers 409, creates no User row, and still flips the
invitation to ACCEPTED with `acceptedAt` set. -/
theorem invitation_consumed_on_duplicate_accept (token password confirmPassword : String)
    (hash : String → String) (freshUserId : String) (now : Nat) (s : Store)
    (inv : Invitation) (tenant : Tenant)
    (hbody : acceptBodyValid token password confirmPassword = true)
    (hfind : findPendingByToken token s = some inv)
    (hten : findTenant inv.tenantId s = some tenant)
    (hexp : ¬ inv.expiresAt < now)
    (hdup : s.users.any (fun u => u.email == inv.email && u.tenantId == inv.tenantId) = true) :
    (acceptInvite token password confirmPassword hash freshUserId now s).1.status = 409 ∧
    (acceptInvite token password confirmPassword hash freshUserId now s).2.users = s.users ∧
    (acceptInvite token password confirmPassword hash freshUserId now s).2 =
      updateInvitation inv.id
        (fun i => { i with status := InvitationStatus.ACCEPTED, acceptedAt := some now }) s ∧
    ∃ i ∈ (acceptInvite token password confirmPassword hash freshUserId now s).2.invitations,
      i.id = inv.id ∧ i.status = InvitationStatus.ACCEPTED ∧ i.acceptedAt = some now := by
  have hred : acceptInvite token password confirmPassword hash freshUserId now s =
      (jsonError 409 "User already exists in this organization",
       updateInvitation inv.id
         (fun i => { i with status := InvitationStatus.ACCEPTED, acceptedAt := some now }) s) := by
    simp [acceptInvite, hbody, hfind, hten, hexp, hdup]
  refine ⟨by rw [hred]; rfl, by rw [hred]; simp [updateInvitation], by rw [hred], ?_⟩
  rw [hred]
  refine ⟨{ inv with status := InvitationStatus.ACCEPTED, acceptedAt := some now }, ?_, rfl, rfl, rfl⟩
  have hmem : inv ∈ s.invitations := List.mem_of_find?_eq_some hfind
  have himg := List.mem_map_of_mem
    (fun i => if i.id == inv.id then
      { i with status := InvitationStatus.ACCEPTED, acceptedAt := some now } else i) hmem
  simpa [updateInvitation] using himg

/-- Concrete witness for C10: accepting the duplicate-email invitation
answers 409, leaves the user table unchanged, and marks the invitation
ACCEPTED. -/
theorem invitation_consumed_on_duplicate_accept_witness :
    (storeInvite.users.any (fun u =>
      u.email == invDup.email && u.tenantId == invDup.tenantId)) = true ∧
    (acceptInvite "tok2" "password1" "password1" (fun p => p) "u9" 50 storeInvite).1.status = 409 ∧
    (acceptInvite "tok2" "password1" "password1" (fun p => p) "u9" 50 storeInvite).2.users =
      storeInvite.users := by
  have h := invitation_consumed_on_duplicate_accept "tok2" "password1" "password1" (fun p => p)
    "u9" 50 storeInvite invDup tenantAcme (by decide) (by decide) (by decide) (by decide)
    (by decide)
  exact ⟨by decide, h.1, h.2.1⟩

/-- C6: invitation issuance user cap.  For an ADMIN caller of an existing
FREE tenant, a fresh invitation (email has neither a user nor a pending
invitation in the tenant) is rejected with 403 and no invitation row exactly
when currentUserCount + pendingInvitationCount + 1 exceeds 5; otherwise the
invitation row is created with status PENDING. -/
theorem invitation_user_cap (c : UserContext) (email : String) (role : Role)
    (token invId : String) (now expiresAt : Nat) (s : Store) (tenant : Tenant)
    (hadmin : c.role = Role.ADMIN)
    (hnouser : s.users.any (fun u => u.email == email && u.tenantId == c.tenantId) = false)
    (hnoinv : s.invitations.any (fun i =>
      i.email == email && i.tenantId == c.tenantId &&
      i.status == InvitationStatus.PENDING) = false)
    (hten : findTenant c.tenantId s = some tenant) (hplan : tenant.plan = Plan.FREE) :
    (userCount c.tenantId s + pendingInvitationCount c.tenantId s + 1 > 5 →
      (invitePost (some c) email role token invId now expiresAt s).1.status = 403 ∧
      (invitePost (some c) email role token invId now expiresAt s).2 = s) ∧
    (userCount c.tenantId s + pendingInvitationCount c.tenantId s + 1 ≤ 5 →
      (invitePost (some c) email role token invId now expiresAt s).1.status = 201 ∧
      (invitePost (some c) email role token invId now expiresAt s).2.invitations =
        s.invitations ++
          [{ id := invId, email := email, role := role, token := token,
             status := InvitationStatus.PENDING, tenantId := c.tenantId,
             invitedBy := c.userId, expiresAt := expiresAt,
             acceptedAt := none, createdAt := now }]) := by
  constructor
  · intro hgt
    simp [invitePost, hadmin, hnouser, hnoinv, hten, hplan, hgt]
  · intro hle
    have hngt : ¬ userCount c.tenantId s + pendingInvitationCount c.tenantId s + 1 > 5 := by
      omega
    simp [invitePost, hadmin, hnouser, hnoinv, hten, hplan, hngt]

/-- Concrete witness for C6: with 2 users and 2 pending invitations the
Acme admin can still invite a 5th account, and the row is PENDING. -/
theorem invitation_user_cap_witness :
    userCount "t1" storeInvite + pendingInvitationCount "t1" storeInvite + 1 ≤ 5 ∧
    (invitePost (some ctxAdminAcme) "fifth@acme.test" Role.MEMBER "tok5" "i5" 60 160
      storeInvite).1.status = 201 ∧
    (invitePost (some ctxAdminAcme) "fifth@acme.test" Role.MEMBER "tok5" "i5" 60 160
      storeInvite).2.invitations =
      storeInvite.invitations ++
        [{ id := "i5", email := "fifth@acme.test", role := Role.MEMBER, token := "tok5",
           status := InvitationStatus.PENDING, tenantId := "t1", invitedBy := "u1",
           expiresAt := 160, acceptedAt := none, createdAt := 60 }] := by
  have h := invitation_user_cap ctxAdminAcme "fifth@acme.test" Role.MEMBER "tok5" "i5" 60 160
    storeInvite tenantAcme (by decide) (by decide) (by decide) (by decide) (by decide)
  exact ⟨by decide, (h.2 (by decide)).1, (h.2 (by decide)).2⟩

/-- Sample admin user of the PRO tenant. -/
def userAdminGlobex : User :=
  { id := "u3", email := "admin@globex.test", password := "h3", role := Role.ADMIN,
    tenantId := "t2" }

/-- Store with the Globex admin present and no notes yet. -/
def storeGlobexUser : Store :=
  { tenants := [tenantAcme, tenantGlobex]
    users := [userAdminAcme, userMemberAcme, userAdminGlobex]
    notes := []
    invitations := [] }

/-- C7: create/get round trip.  After a successful create of a note with an
already-trimmed title and content by an authenticated caller whose tenant
admits another note, a get of the fresh id by the same caller returns a 200
response whose note carries exactly that title, that content, and an author
whose id is the creating caller's userId. -/
theorem create_get_round_trip (c : UserContext) (title content freshId : String)
    (now : Nat) (s : Store) (t : Tenant) (u : User)
    (hu : c.userId ≠ "") (ht : c.tenantId ≠ "")
    (hvalid : validateCreateNoteErrors { title := title, content := content } = [])
    (htrimT : strTrim title = title) (htrimC : strTrim content = content)
    (hten : findTenant c.tenantId s = some t)
    (hcan : canCreateNote t.plan (noteCount c.tenantId s) = true)
    (hidv : validateNoteId freshId = true)
    (hfresh : ∀ n ∈ s.notes, n.id ≠ freshId)
    (huser : s.users.find? (fun v => v.id == c.userId) = some u) :
    (notesCreate (some c) { title := title, content := content } freshId now s).1.status = 201 ∧
    noteGet (some c) freshId
      (notesCreate (some c) { title := title, content := content } freshId now s).2 =
      createApiResponse
        (Json.obj [("note",
          Json.obj [("id", Json.str freshId), ("title", Json.str title),
                    ("content", Json.str content), ("createdAt", Json.num now),
                    ("updatedAt", Json.num now),
                    ("author",
                     Json.obj [("id", Json.str c.userId), ("email", Json.str u.email),
                               ("role", Json.str (roleToString u.role))])])])
        (some "Note retrieved successfully") 200 := by
  have huid : u.id = c.userId := by
    have := List.find?_some huser
    simpa using this
  have hok : validateCreateNote { title := title, content := content } =
      Except.ok { title := title, content := content } := by
    simp [validateCreateNote, hvalid, htrimT, htrimC]
  have hcreated : notesCreate (some c) { title := title, content := content } freshId now s =
      ((notesCreate (some c) { title := title, content := content } freshId now s).1,
       { s with notes := s.notes ++
          [{ id := freshId, title := title, content := content, authorId := c.userId,
             tenantId := c.tenantId, createdAt := now, updatedAt := now }] }) := by
    simp only [notesCreate, hu, ht, hok, validateNoteCreation, checkNoteLimit,
      getSubscriptionStatus, hten, hcan]
    simp [findTenant] at hten ⊢
    simp [hten]
  have hfound : findNoteScoped freshId c.tenantId
      { s with notes := s.notes ++
        [{ id := freshId, title := title, content := content, authorId := c.userId,
           tenantId := c.tenantId, createdAt := now, updatedAt := now }] } =
      some { id := freshId, title := title, content := content, authorId := c.userId,
             tenantId := c.tenantId, createdAt := now, updatedAt := now } := by
    have hnone : s.notes.find? (fun n => n.id == freshId && n.tenantId == c.tenantId) = none := by
      rw [List.find?_eq_none]
      intro x hx
      simp [hfresh x hx]
    simp [findNoteScoped, hnone]
  constructor
  · simp only [notesCreate, hu, ht, hok, validateNoteCreation, checkNoteLimit,
      getSubscriptionStatus, hten, hcan]
    simp [findTenant] at hten ⊢
    simp [hten, createApiResponse]
  · rw [hcreated]
    simp only [noteGet, hu, ht, hidv]
    simp only [hfound]
    simp [noteJson, authorJson, huser, huid]

/-- Concrete witness for C7: the Globex admin creates a note titled "T" with
content "C" and immediately reads it back unchanged. -/
theorem create_get_round_trip_witness :
    (notesCreate (some ctxAdminGlobex) { title := "T", content := "C" } cuid4 7
      storeGlobexUser).1.status = 201 ∧
    noteGet (some ctxAdminGlobex) cuid4
      (notesCreate (some ctxAdminGlobex) { title := "T", content := "C" } cuid4 7
        storeGlobexUser).2 =
      createApiResponse
        (Json.obj [("note",
          Json.obj [("id", Json.str cuid4), ("title", Json.str "T"),
                    ("content", Json.str "C"), ("createdAt", Json.num 7),
                    ("updatedAt", Json.num 7),
                    ("author",
                     Json.obj [("id", Json.str "u3"),
                               ("email", Json.str "admin@globex.test"),
                               ("role", Json.str (roleToString Role.ADMIN))])])])
        (some "Note retrieved successfully") 200 := by
  have h := create_get_round_trip ctxAdminGlobex "T" "C" cuid4 7 storeGlobexUser
    tenantGlobex userAdminGlobex (by decide) (by decide) (by decide) (by decide) (by decide)
    (by decide) (by decide) (by decide) (fun n hn => by simp [storeGlobexUser] at hn)
    (by decide)
  exact h

/-- Counterexample to C8 as stated: the accept handler's invalid-token
response is an error (status 404) whose body is a bare `{error: ...}` object
carrying no `success:false` flag, so not every API error response has the
uniform envelope. -/
theorem uniform_error_envelope_counterexample :
    (acceptInvite "tok9" "password1" "password1" (fun p => p) "u9" 50 storeInvite).1.status = 404 ∧
    isErrorEnvelope
      (acceptInvite "tok9" "password1" "password1" (fun p => p) "u9" 50 storeInvite).1.body =
      false := by
  constructor <;> rfl

/-- C8 (amended): every error response built through the shared
`createApiError` helper carries the uniform envelope
`{success:false, error:<message>}`, and hence so does every response with an
error status produced by the notes handlers, which build all their error
responses with those helpers; the invitation invite/accept routes instead
emit bare `{error: ...}` bodies. -/
theorem uniform_error_envelope (msg : String) (status : Nat)
    (ctx : Option UserContext) (id : String) (ub : UpdateNoteBody) (cb : CreateNoteBody)
    (freshId : String) (now : Nat) (q : NoteQuery) (s : Store) :
    isErrorEnvelope (createApiError msg status).body = true ∧
    ((noteGet ctx id s).status ≥ 400 → isErrorEnvelope (noteGet ctx id s).body = true) ∧
    ((notePut ctx id ub now s).1.status ≥ 400 →
      isErrorEnvelope (notePut ctx id ub now s).1.body = true) ∧
    ((noteDelete ctx id s).1.status ≥ 400 →
      isErrorEnvelope (noteDelete ctx id s).1.body = true) ∧
    ((notesCreate ctx cb freshId now s).1.status ≥ 400 →
      isErrorEnvelope (notesCreate ctx cb freshId now s).1.body = true) ∧
    ((notesList ctx q s).status ≥ 400 → isErrorEnvelope (notesList ctx q s).body = true) := by
  refine ⟨rfl, ?_, ?_, ?_, ?_, ?_⟩ <;>
  · simp only [noteGet, notePut, noteDelete, notesCreate, notesList]
    repeat' split
    all_goals
      simp [createApiError, createApiResponse, createValidationError,
        createNotFoundError, isErrorEnvelope]

/-- Concrete witness for C8 (amended): an unauthenticated note get is an
error response in the uniform envelope. -/
theorem uniform_error_envelope_witness :
    (noteGet none "x" storeBase).status ≥ 400 ∧
    isErrorEnvelope (noteGet none "x" storeBase).body = true :=
  ⟨by decide,
   (uniform_error_envelope "m" 400 none "x" { title := none, content := none }
     { title := "a", content := "b" } "id" 0 {} storeBase).2.1 (by decide)⟩

end NotesApp
